import Mathlib

/-!
# Verification of the `script-loader` lifecycle controller

Shallow embedding of `src/index.ts` of the `script-loader` repository:
a lifecycle controller (`ScriptLoader`) that runs ordered startup steps,
turns callable startup results into prepended shutdown steps, and on
`stop()` runs the shutdown steps, funnels errors through a single error
handler and terminates the process with a derived exit code; plus the
dot-path settings facade (a `configstore` wrapper) it reads its two
timeout settings from.

JavaScript values are modelled by the inductive `JSVal` (numbers as `Int`;
floating point is outside the modelled fragment, no claim touches it).
Asynchronous handlers are modelled by their observable settlement: a
settlement time (`none` = never settles) together with a fulfilment or
rejection value; the timeout race `rejectAfter` compares the settlement
time with the delay exactly as `Promise.race` against a `setTimeout`
rejection does.  Process-level effects (signal attachment, handler
invocations, the error-handler call, `process.exit`) are recorded as an
explicit event trace and an `Outcome`.
-/

namespace ScriptLoaderSpec

mutual

/-- A JavaScript value, restricted to the fragment the program manipulates:
`undefined`, `null`, booleans, (integer) numbers, strings and plain objects
(ordered field lists, as JS objects preserve insertion order). -/
inductive JSVal where
  | undefined : JSVal
  | null : JSVal
  | bool (b : Bool) : JSVal
  | num (n : Int) : JSVal
  | str (s : String) : JSVal
  | obj (fields : JSFields) : JSVal
deriving DecidableEq

/-- The ordered own-property list of a JS object. -/
inductive JSFields where
  | nil : JSFields
  | cons (key : String) (value : JSVal) (rest : JSFields) : JSFields
deriving DecidableEq

end

namespace JSFields

/-- Build an object field list from a Lean association list. -/
def ofList : List (String × JSVal) → JSFields
  | [] => .nil
  | (k, v) :: fs => .cons k v (ofList fs)

/-- Own-property lookup on an object's ordered field list. -/
def lookupField : JSFields → String → Option JSVal
  | .nil, _ => none
  | .cons k v fs, key => if k = key then some v else lookupField fs key

/-- Own-property assignment: overwrite in place (JS keeps the original
insertion position of an overwritten key) or append a fresh key. -/
def setField : JSFields → String → JSVal → JSFields
  | .nil, key, v => .cons key v .nil
  | .cons k w fs, key, v =>
      if k = key then .cons key v fs else .cons k w (setField fs key v)

/-- Own-property deletion (`delete obj[key]`). -/
def deleteField : JSFields → String → JSFields
  | .nil, _ => .nil
  | .cons k w fs, key => if k = key then fs else .cons k w (deleteField fs key)

end JSFields

/-- Character-level worker for `splitPath`: `acc` holds the current segment
reversed. -/
def splitPathAux : List Char → List Char → List String
  | [], acc => [String.mk acc.reverse]
  | c :: cs, acc =>
      if c = '.' then String.mk acc.reverse :: splitPathAux cs []
      else splitPathAux cs (c :: acc)

/-- `path.split(".")`: a dot-separated object path as its list of segments —
always at least one segment, empty segments kept, as in JavaScript.
(`dot-prop`'s backslash escaping of dots is outside the modelled fragment:
no key used by the program contains an escaped dot.) -/
def splitPath (path : String) : List String := splitPathAux path.data []

/-- `dot-prop` traversal: the value at a segment list, `none` when some
segment is missing or an intermediate value is not an object. -/
def getPath : JSVal → List String → Option JSVal
  | v, [] => some v
  | .obj fs, k :: ks =>
      match fs.lookupField k with
      | some v => getPath v ks
      | none => none
  | _, _ :: _ => none

/-- `dot-prop` `has`: every segment resolves through own properties. -/
def hasPath (v : JSVal) (ks : List String) : Bool := (getPath v ks).isSome

/-- `dot-prop` `set`: walk the path creating `{}` for missing or non-object
intermediates; a non-object root is returned unchanged (as in `dot-prop`). -/
def setPath : JSVal → List String → JSVal → JSVal
  | root, [], _ => root
  | .obj fs, [k], v => .obj (fs.setField k v)
  | .obj fs, k :: k' :: ks, v =>
      let child : JSVal :=
        match fs.lookupField k with
        | some (.obj cf) => .obj cf
        | _ => .obj .nil
      .obj (fs.setField k (setPath child (k' :: ks) v))
  | root, _ :: _, _ => root

/-- `dot-prop` `delete`: remove the own property at the end of the path;
a missing or non-object intermediate makes it a no-op. -/
def deletePath : JSVal → List String → JSVal
  | root, [] => root
  | .obj fs, [k] => .obj (fs.deleteField k)
  | .obj fs, k :: k' :: ks =>
      match fs.lookupField k with
      | some (.obj cf) => .obj (fs.setField k (deletePath (.obj cf) (k' :: ks)))
      | _ => .obj fs
  | root, _ :: _ => root

/-- The object spread `{...v}`: a shallow copy; spreading a non-object
produces the empty object. -/
def spreadCopy : JSVal → JSVal
  | .obj fs => .obj fs
  | _ => .obj .nil

/-- Append-with-overwrite of one field list onto another, used by the
two-object spread below. -/
def mergeFields (fs : JSFields) : JSFields → JSFields
  | .nil => fs
  | .cons k v gs => mergeFields (fs.setField k v) gs

/-- The two-object spread `{...a, ...b}`: keys of `a` then keys of `b`,
`b` winning on collision (the collided key keeps `a`'s position). -/
def shallowMerge (a b : JSVal) : JSVal :=
  match a, b with
  | .obj fs, .obj gs => .obj (mergeFields fs gs)
  | .obj fs, _ => .obj fs
  | _, .obj gs => .obj gs
  | _, _ => .obj .nil

/-! ## The settings store (`configstore` boundary)

The program stores its settings in a `configstore`; the store's contents
are a JS object and its operations are the `dot-prop` operations above
(`configstore`'s persistence to disk is invisible to the program's own
control flow and not modelled). -/

namespace ConfigStore

/-- `configstore.has(path)`. -/
def has (store : JSVal) (path : String) : Bool := hasPath store (splitPath path)

/-- `configstore.get(path)`: the value, or `undefined` when absent. -/
def get (store : JSVal) (path : String) : JSVal :=
  (getPath store (splitPath path)).getD .undefined

/-- `configstore.set(path, value)`. -/
def set (store : JSVal) (path : String) (v : JSVal) : JSVal :=
  setPath store (splitPath path) v

/-- `configstore.set(object)`: each own key of the argument is treated as a
dot-path and set in turn. -/
def setObject (store : JSVal) (vs : List (String × JSVal)) : JSVal :=
  vs.foldl (fun acc kv => set acc kv.1 kv.2) store

/-- `configstore.delete(path)`. -/
def delete (store : JSVal) (path : String) : JSVal :=
  deletePath store (splitPath path)

end ConfigStore

/-! ## Environment-variable lookup and input parsing -/

/-- `process.env`, made explicit: an association list of variable names to
string values (environment variables are always strings). -/
def lookupEnv : List (String × String) → String → Option String
  | [], _ => none
  | (k, v) :: es, key => if k = key then some v else lookupEnv es key

/-- `pathToEnv` from the source: replace every `-` and `.` of the path with
`_`, uppercase the result (character-wise ASCII uppercasing, the fragment
the program's setting keys live in), and put the (non-uppercased) prefix in
front. -/
def pathToEnv (path : String) (pfx : String) : String :=
  pfx ++ String.mk (path.data.map
    (fun c => Char.toUpper (if c = '-' || c = '.' then '_' else c)))

/-- The test of `PARSE_IF_REGEX`, the regex `^([\[\{"]|-?[0-9]+)`: the input
starts with `[`, `{` or `"`, or with an optional minus followed by a digit. -/
def parseIfTest (s : String) : Bool :=
  match s.data with
  | [] => false
  | c :: rest =>
      c = '[' || c = '{' || c = '"' || c.isDigit ||
        (c = '-' && match rest with | d :: _ => d.isDigit | [] => false)

/-- Boundary model of the JavaScript builtin `JSON.parse`, restricted to the
fragment this development exercises: integer literals and double-quoted
strings without escape sequences.  `parseIfTest` only lets strings starting
with `[`, `{`, `"`, a digit or a minus through, so compound JSON values
(arrays, objects) and fractional numbers are the inputs left outside the
modelled fragment; they are mapped to `undefined` and no claim touches them. -/
def jsonParseLite (s : String) : JSVal :=
  match s.toInt? with
  | some n => .num n
  | none =>
      match s.data with
      | '"' :: rest =>
          if rest ≠ [] && rest.getLast? = some '"' && ¬(rest.dropLast.contains '"')
            && ¬(rest.dropLast.contains '\\')
          then .str (String.mk rest.dropLast)
          else .undefined
      | _ => .undefined

/-- `parseInput` from the source: JSON-parse inputs that look like JSON
(per `PARSE_IF_REGEX`), pass every other string through unchanged. -/
def parseInput (input : String) : JSVal :=
  if parseIfTest input then jsonParseLite input else .str input

/-! ## Handlers and the timeout race

A handler's asynchronous run is modelled by its observable settlement: the
time at which its promise settles (`none` = it never settles) and the value
it settles with — a fulfilment or a rejection.  Handlers receive the
zero-based step index and the total step count exactly as the source passes
them (`fn(this, step, length)`); the `this` argument is the loader itself,
whose mutable surface the claims never make a handler touch, so a handler's
behaviour is a pure function of the two numeric arguments. -/

/-- The settlement of one asynchronous handler invocation. -/
structure Settlement (α : Type) where
  /-- When the promise settles; `none` models a promise that never settles. -/
  settle : Option Nat
  /-- What it settles with: a fulfilment value or a rejection value. -/
  result : Except JSVal α

/-- A shutdown handler: an identity plus a behaviour, a function of the
zero-based step index and total step count. -/
structure ShutdownHandlerT (ι : Type) where
  id : ι
  run : Nat → Nat → Settlement Unit

/-- What a startup handler's promise can resolve to: a callable (which the
source detects with `typeof result === "function"` and treats as a shutdown
handler) or anything else (ignored).  `ι` names the callables' identities so
the shutdown trace can record which one ran. -/
inductive StartupRes (ι : Type) where
  | callable (h : ShutdownHandlerT ι) : StartupRes ι
  | notCallable : StartupRes ι

/-- A startup handler: a behaviour, a function of the zero-based step index
and total step count, resolving to a `StartupRes` or rejecting. -/
structure StartupHandlerT (ι : Type) where
  run : Nat → Nat → Settlement (StartupRes ι)

/-- `rejectAfter(promise, delay, error)` from the source:
`Promise.race` of the promise against a timer that rejects with `error`
after `delay` milliseconds.  The promise wins the race exactly when it
settles strictly before the delay elapses; otherwise the race rejects with
the sentinel.  (The loser keeps running unobserved — nothing here depends
on it, matching the source's lack of cancellation.  The source's default
delay of 1000 is never used: both call sites pass a delay.) -/
def rejectAfter (settle : Option Nat) (result : Except JSVal α) (delay : Int)
    (error : JSVal) : Except JSVal α :=
  match settle with
  | some t => if (t : Int) < delay then result else .error error
  | none => .error error

/-- `new Error(msg)`: an object carrying the message, with no `exitCode`
field; `typeof` is `"object"`. -/
def mkError (msg : String) : JSVal :=
  .obj (.cons "name" (.str "Error") (.cons "message" (.str msg) .nil))

/-- The sentinel built at startup step `i` (zero-based loop counter, read
before the `step++` post-increment): `new Error("Startup halted at step " + i)`. -/
def startupHaltedError (i : Nat) : JSVal :=
  mkError ("Startup halted at step " ++ toString i)

/-- The sentinel built at shutdown step `i` (zero-based, same pattern). -/
def shutdownHaltedError (i : Nat) : JSVal :=
  mkError ("Shutdown halted at step " ++ toString i)

/-- The `TypeError` the runtime throws for `error.exitCode` when `error` is
`null` (reading a property of `null`). -/
def nullReadError : JSVal :=
  .obj (.cons "name" (.str "TypeError")
    (.cons "message" (.str "Cannot read property of null") .nil))

/-- The exit-code expression of `stop`:
`typeof error === "object" && typeof error.exitCode === "number" && error.exitCode || 1`.
`typeof null === "object"`, so a `null` error throws a `TypeError` when its
`exitCode` property is read; a numeric `exitCode` of `0` is falsy, so `|| 1`
turns it into `1`.  (JS `NaN` and `-0`, also falsy, have no counterpart in
the integer fragment modelled here.) -/
def computeExitCode (error : JSVal) : Except JSVal Int :=
  match error with
  | .null => .error nullReadError
  | .obj fs =>
      match fs.lookupField "exitCode" with
      | some (.num c) => .ok (if c = 0 then 1 else c)
      | _ => .ok 1
  | _ => .ok 1

/-! ## The controller -/

/-- One observable process-level event of a `start`/`stop` run. -/
inductive Event (ι : Type) where
  /-- The `SIGINT`/`SIGTERM`/`stdin end` listeners were attached. -/
  | attached : Event ι
  /-- The startup handler at zero-based index `i` was invoked. -/
  | ranStartup (i : Nat) : Event ι
  /-- The shutdown handler with identity `id` was invoked. -/
  | ranShutdown (id : ι) : Event ι
  /-- The error handler was invoked with `e`. -/
  | calledOnError (e : JSVal) : Event ι
deriving DecidableEq

/-- How a `start`/`stop` call ends, seen from its caller and the process. -/
inductive Outcome where
  /-- The returned promise resolved (with `undefined`). -/
  | resolved : Outcome
  /-- `process.exit(code)` was reached. -/
  | exited (code : Int) : Outcome
  /-- The returned promise rejected with `e` — an error escaped to the caller. -/
  | threw (e : JSVal) : Outcome
deriving DecidableEq

/-- The `ScriptLoader` instance state: the two handler lists, the error
handler (modelled by its observable behaviour: `none` = it completes,
`some e` = it throws/rejects with `e`), the settings store and the
default-settings snapshot (the two `Symbol`-keyed slots), the never-assigned
`envPrefix`, the resolved `environment`, and the two state flags. -/
structure ScriptLoader (ι : Type) where
  startupSteps : List (StartupHandlerT ι)
  shutdownSteps : List (ShutdownHandlerT ι)
  onError : JSVal → Option JSVal
  settings : JSVal
  defaultSettings : JSVal
  envPrefix : Option String
  environment : JSVal
  isRunning : Bool
  isShutdownRunning : Bool

/-- The pre-set error handler `(e) => console.error(e)`: logs and completes
normally. -/
def defaultOnError : JSVal → Option JSVal := fun _ => none

namespace ScriptLoader

variable {ι : Type}

/-- `hasSetting(path)`. -/
def hasSetting (l : ScriptLoader ι) (path : String) : Bool :=
  ConfigStore.has l.settings path

/-- `getSetting(path, default_value)`: the stored value when `hasSetting`,
else the default (`undefined` when no default is passed). -/
def getSetting (l : ScriptLoader ι) (path : String) (dflt : JSVal) : JSVal :=
  if l.hasSetting path then ConfigStore.get l.settings path else dflt

/-- `getSettingOrEnv(path, default_value)`: an environment variable whose
name is derived from the path wins over the store; `process.env` is passed
explicitly. -/
def getSettingOrEnv (l : ScriptLoader ι) (envVars : List (String × String))
    (path : String) (dflt : JSVal) : JSVal :=
  let env := pathToEnv path (l.envPrefix.getD "")
  match lookupEnv envVars env with
  | some v => parseInput v
  | none =>
      if ConfigStore.has l.settings path then ConfigStore.get l.settings path
      else dflt

/-- `setSetting(path, value)`. -/
def setSetting (l : ScriptLoader ι) (path : String) (v : JSVal) : ScriptLoader ι :=
  { l with settings := ConfigStore.set l.settings path v }

/-- `setSettings(values)`. -/
def setSettings (l : ScriptLoader ι) (vs : List (String × JSVal)) : ScriptLoader ι :=
  { l with settings := ConfigStore.setObject l.settings vs }

/-- `deleteSetting(path)`. -/
def deleteSetting (l : ScriptLoader ι) (path : String) : ScriptLoader ι :=
  { l with settings := ConfigStore.delete l.settings path }

/-- `resetSettings()`: `configStore.all = { ...defaultSettings }`. -/
def resetSettings (l : ScriptLoader ι) : ScriptLoader ι :=
  { l with settings := spreadCopy l.defaultSettings }

/-- `addStartupSteps(...steps)`: append. -/
def addStartupSteps (l : ScriptLoader ι) (steps : List (StartupHandlerT ι)) :
    ScriptLoader ι :=
  { l with startupSteps := l.startupSteps ++ steps }

/-- `addShutdownSteps(...steps)`: append. -/
def addShutdownSteps (l : ScriptLoader ι) (steps : List (ShutdownHandlerT ι)) :
    ScriptLoader ι :=
  { l with shutdownSteps := l.shutdownSteps ++ steps }

/-- `setErrorHandler(onError)`. -/
def setErrorHandler (l : ScriptLoader ι) (h : JSVal → Option JSVal) : ScriptLoader ι :=
  { l with onError := h }

end ScriptLoader

/-- `process.env.NODE_ENV || "development"`, the fallback of the
constructor's `environment` resolution (the empty string is falsy). -/
def nodeEnvDefault (envVars : List (String × String)) : JSVal :=
  match lookupEnv envVars "NODE_ENV" with
  | some s => if s = "" then .str "development" else .str s
  | none => .str "development"

/-- The store contents right after construction:
`if (defaultSettings) configStore.all = {...defaultSettings, ...configStore.all}`
— the supplied defaults shallow-merged under the persisted contents (the
persisted contents win). -/
def initialStore (defaults : Option JSVal) (persisted : JSVal) : JSVal :=
  match defaults with
  | some d => shallowMerge d persisted
  | none => persisted

/-- The constructor, for a caller passing collection info directly: seeds the
store with `{...defaultSettings, ...persisted}` when `defaultSettings` is
supplied (the persisted store contents win), snapshots `defaultSettings || {}`,
registers the supplied handlers, leaves `envPrefix` unassigned (the source
never writes it), and resolves `environment` through
`getSettingOrEnv("runtime.environment", process.env.NODE_ENV || "development")`. -/
def construct (envVars : List (String × String)) (defaults : Option JSVal)
    (persisted : JSVal) (su : List (StartupHandlerT ι))
    (sd : List (ShutdownHandlerT ι)) (onErr : JSVal → Option JSVal) :
    ScriptLoader ι :=
  let store : JSVal := initialStore defaults persisted
  let partial0 : ScriptLoader ι :=
    { startupSteps := su
      shutdownSteps := sd
      onError := onErr
      settings := store
      defaultSettings := (defaults.getD (.obj .nil))
      envPrefix := none
      environment := .undefined
      isRunning := false
      isShutdownRunning := false }
  { partial0 with
      environment :=
        partial0.getSettingOrEnv envVars "runtime.environment" (nodeEnvDefault envVars) }

namespace ScriptLoader

variable {ι : Type}

/-- `setTimeout` delay coercion at the model boundary: the two timeout
settings are used as delays; a non-numeric value is outside the modelled
fragment (Node would coerce it and clamp invalid delays to 1ms) and is
mapped to 1.  Every claim reads either the numeric default 2000 or a
numeric stored value. -/
def toDelay : JSVal → Int
  | .num n => n
  | _ => 1

/-- The `for (const fn of this.startupSteps)` loop of `start` (source lines
415–427): invoke each handler with the zero-based counter and the total,
race it against the startup timeout with the sentinel
`startupHaltedError` of the current counter value, prepend
(`unshift`) a callable resolution onto the shutdown list, and abort with the
error of the first losing race or rejection.  Returns the final shutdown
list, the trace of invoked startup steps, and the aborting error if any. -/
def startupLoop (steps : List (StartupHandlerT ι)) (delay : Int) (total : Nat)
    (idx : Nat) (sd : List (ShutdownHandlerT ι)) :
    List (ShutdownHandlerT ι) × List (Event ι) × Option JSVal :=
  match steps with
  | [] => (sd, [], none)
  | h :: rest =>
      match rejectAfter (h.run idx total).settle (h.run idx total).result delay
        (startupHaltedError idx) with
      | .error e => (sd, [.ranStartup idx], some e)
      | .ok (.callable c) =>
          match startupLoop rest delay total (idx + 1) (c :: sd) with
          | (sd2, evs, err) => (sd2, .ranStartup idx :: evs, err)
      | .ok .notCallable =>
          match startupLoop rest delay total (idx + 1) sd with
          | (sd2, evs, err) => (sd2, .ranStartup idx :: evs, err)

/-- The `for (const fn of this.shutdownSteps)` loop of `stop` (source lines
450–454): race each handler against the shutdown timeout with the sentinel
`shutdownHaltedError` of the current counter; the `catch` turns the
first losing race or rejection into the loop's error (`undefined` = none
arose — a handler rejecting with `undefined` is indistinguishable from
success at the subsequent `error !== undefined` test, as in the source). -/
def shutdownLoop (steps : List (ShutdownHandlerT ι)) (delay : Int) (total : Nat)
    (idx : Nat) : List (Event ι) × JSVal :=
  match steps with
  | [] => ([], .undefined)
  | h :: rest =>
      match rejectAfter (h.run idx total).settle (h.run idx total).result delay
        (shutdownHaltedError idx) with
      | .error e => ([.ranShutdown h.id], e)
      | .ok _ =>
          match shutdownLoop rest delay total (idx + 1) with
          | (evs, err) => (.ranShutdown h.id :: evs, err)

/-- The tail of `stop` after the shutdown phase (source lines 459–464):
`p` is the phase's (events, error) pair.  No error: `process.exit(0)`.
Otherwise `await this.onError(error)` — un-guarded, so an error handler
that throws makes `stop`'s own promise reject — then `process.exit` with
the code of `computeExitCode` (whose read of `null.exitCode` also throws). -/
def stopFinish (l1 : ScriptLoader ι) (p : List (Event ι) × JSVal) :
    List (Event ι) × Outcome :=
  if p.2 = .undefined then (p.1, .exited 0)
  else
    match l1.onError p.2 with
    | some thrown => (p.1 ++ [.calledOnError p.2], .threw thrown)
    | none =>
        match computeExitCode p.2 with
        | .error t => (p.1 ++ [.calledOnError p.2], .threw t)
        | .ok c => (p.1 ++ [.calledOnError p.2], .exited c)

/-- The body of `stop` past its guard (source lines 447–464), on the
already-flipped state `l1`: with no error supplied the shutdown loop runs
under `runtime.shutdownTimeout` (default 2000) and its failure, if any,
becomes the error; a supplied error skips the loop entirely. -/
def stopBody (l1 : ScriptLoader ι) (error : JSVal) : List (Event ι) × Outcome :=
  stopFinish l1
    (if error = .undefined then
      shutdownLoop l1.shutdownSteps
        (toDelay (l1.getSetting "runtime.shutdownTimeout" (.num 2000)))
        l1.shutdownSteps.length 0
    else ([], error))

/-- `stop(error?)` (source lines 441–465).  Guard: no-op unless running and
not already shutting down; then the flags flip to shutting-down and the body
runs. -/
def stop (l : ScriptLoader ι) (error : JSVal) :
    ScriptLoader ι × List (Event ι) × Outcome :=
  if !l.isRunning || l.isShutdownRunning then (l, [], .resolved)
  else
    ({ l with isRunning := false, isShutdownRunning := true },
      stopBody { l with isRunning := false, isShutdownRunning := true } error)

/-- The body of `start` past its guard (source lines 409–430), on the
already-flipped state `l1`: the termination listeners are attached when
asked, `runtime.startupTimeout` (default 2000) is read once, the startup
loop runs, and any aborting error is handed to `stop` — whose outcome
(including a rejection) becomes `start`'s own. -/
def startBody (l1 : ScriptLoader ι) (attach : Bool) :
    ScriptLoader ι × List (Event ι) × Outcome :=
  match startupLoop l1.startupSteps
      (toDelay (l1.getSetting "runtime.startupTimeout" (.num 2000)))
      l1.startupSteps.length 0 l1.shutdownSteps with
  | (sd, evs, none) =>
      ({ l1 with shutdownSteps := sd },
        (if attach then [.attached] else []) ++ evs, .resolved)
  | (sd, evs, some e) =>
      match stop { l1 with shutdownSteps := sd } e with
      | (l3, evs2, out) =>
          (l3, (if attach then [.attached] else []) ++ evs ++ evs2, out)

/-- `start(attach = true)` (source lines 404–431).  Guard: no-op unless
idle; then the running flag is set and the body runs. -/
def start (l : ScriptLoader ι) (attach : Bool) :
    ScriptLoader ι × List (Event ι) × Outcome :=
  if l.isRunning || l.isShutdownRunning then (l, [], .resolved)
  else startBody { l with isRunning := true } attach

end ScriptLoader

/-! ## Run-shape predicates

Decidable descriptions of how a list of handlers behaves against a given
timeout, used as hypotheses of the lifecycle theorems. -/

/-- The startup handler at index `idx` (of `total`) settles strictly before
the delay with a fulfilment. -/
def stepOk (h : StartupHandlerT ι) (delay : Int) (idx total : Nat) : Bool :=
  match (h.run idx total).settle, (h.run idx total).result with
  | some t, .ok _ => decide ((t : Int) < delay)
  | _, _ => false

/-- Every startup handler of the list, starting at index `idx`, settles in
time with a fulfilment. -/
def startupAllOk : List (StartupHandlerT ι) → Int → Nat → Nat → Bool
  | [], _, _, _ => true
  | h :: rest, delay, total, idx =>
      stepOk h delay idx total && startupAllOk rest delay total (idx + 1)

/-- The first `j` startup handlers of the list, starting at index `idx`,
settle in time with a fulfilment. -/
def startupPrefixOk : List (StartupHandlerT ι) → Int → Nat → Nat → Nat → Bool
  | _, _, _, _, 0 => true
  | [], _, _, _, _ + 1 => true
  | h :: rest, delay, total, idx, j + 1 =>
      stepOk h delay idx total && startupPrefixOk rest delay total (idx + 1) j

/-- The startup handler at index `idx` does not settle before the delay
elapses (it stalls: its race against the timer is lost). -/
def stallsStep (h : StartupHandlerT ι) (delay : Int) (idx total : Nat) : Bool :=
  match (h.run idx total).settle with
  | none => true
  | some t => decide (delay ≤ (t : Int))

/-- The shutdown handler at index `idx` settles in time with a fulfilment. -/
def sdStepOk (h : ShutdownHandlerT ι) (delay : Int) (idx total : Nat) : Bool :=
  match (h.run idx total).settle, (h.run idx total).result with
  | some t, .ok _ => decide ((t : Int) < delay)
  | _, _ => false

/-- Every shutdown handler of the list, starting at index `idx`, settles in
time with a fulfilment. -/
def shutdownAllOk : List (ShutdownHandlerT ι) → Int → Nat → Nat → Bool
  | [], _, _, _ => true
  | h :: rest, delay, total, idx =>
      sdStepOk h delay idx total && shutdownAllOk rest delay total (idx + 1)

/-- The callables resolved by the startup handlers, in startup order: the
dynamically contributed cleanups of a fault-free startup pass. -/
def collectCleanups : List (StartupHandlerT ι) → Int → Nat → Nat →
    List (ShutdownHandlerT ι)
  | [], _, _, _ => []
  | h :: rest, delay, total, idx =>
      match rejectAfter (h.run idx total).settle (h.run idx total).result delay
        (startupHaltedError idx) with
      | .ok (.callable c) => c :: collectCleanups rest delay total (idx + 1)
      | _ => collectCleanups rest delay total (idx + 1)

/-! ## Loop lemmas -/

theorem rejectAfter_of_stepOk {h : StartupHandlerT ι} {delay : Int} {idx total : Nat}
    (hok : stepOk h delay idx total = true) (e : JSVal) :
    rejectAfter (h.run idx total).settle (h.run idx total).result delay e =
      (h.run idx total).result ∧ ∃ r, (h.run idx total).result = .ok r := by
  unfold stepOk at hok
  rcases hs : (h.run idx total).settle with _ | t <;> rw [hs] at hok
  · simp at hok
  · rcases hr : (h.run idx total).result with e' | r <;> rw [hr] at hok
    · simp at hok
    · simp only [decide_eq_true_eq] at hok
      exact ⟨by simp [rejectAfter, hok], r, rfl⟩

theorem rejectAfter_of_stalls {h : StartupHandlerT ι} {delay : Int} {idx total : Nat}
    (hst : stallsStep h delay idx total = true) (e : JSVal) :
    rejectAfter (h.run idx total).settle (h.run idx total).result delay e = .error e := by
  unfold stallsStep at hst
  rcases hs : (h.run idx total).settle with _ | t <;> rw [hs] at hst
  · simp [rejectAfter]
  · simp only [decide_eq_true_eq] at hst
    simp only [rejectAfter]
    rw [if_neg (by omega)]

theorem rejectAfter_of_sdStepOk {h : ShutdownHandlerT ι} {delay : Int} {idx total : Nat}
    (hok : sdStepOk h delay idx total = true) (e : JSVal) :
    rejectAfter (h.run idx total).settle (h.run idx total).result delay e =
      (h.run idx total).result ∧ (h.run idx total).result = .ok () := by
  unfold sdStepOk at hok
  rcases hs : (h.run idx total).settle with _ | t <;> rw [hs] at hok
  · simp at hok
  · rcases hr : (h.run idx total).result with e' | r <;> rw [hr] at hok
    · simp at hok
    · simp only [decide_eq_true_eq] at hok
      exact ⟨by simp [rejectAfter, hok], rfl⟩

namespace ScriptLoader

/-- A fault-free startup pass: every handler settles in time with a
fulfilment, so the loop prepends each resolved callable, visits every index
and finishes with no error. -/
theorem startupLoop_allOk {steps : List (StartupHandlerT ι)} {delay : Int}
    {total : Nat} :
    ∀ {idx : Nat} {sd : List (ShutdownHandlerT ι)},
      startupAllOk steps delay total idx = true →
      startupLoop steps delay total idx sd =
        ((collectCleanups steps delay total idx).reverse ++ sd,
          (List.range' idx steps.length).map Event.ranStartup, none) := by
  induction steps with
  | nil => intro idx sd _; simp [startupLoop, collectCleanups]
  | cons h rest ih =>
      intro idx sd hok
      unfold startupAllOk at hok
      rw [Bool.and_eq_true] at hok
      obtain ⟨hra, r, hr⟩ := rejectAfter_of_stepOk hok.1 (startupHaltedError idx)
      unfold startupLoop collectCleanups
      rw [hra, hr, List.length_cons, List.range'_succ]
      cases r with
      | callable c => simp [ih hok.2]
      | notCallable => simp [ih hok.2]

/-- A fault-free shutdown pass: every handler settles in time with a
fulfilment, so the loop visits every handler in list order and raises no
error. -/
theorem shutdownLoop_allOk {steps : List (ShutdownHandlerT ι)} {delay : Int}
    {total : Nat} :
    ∀ {idx : Nat},
      shutdownAllOk steps delay total idx = true →
      shutdownLoop steps delay total idx =
        (steps.map (fun h => Event.ranShutdown h.id), .undefined) := by
  induction steps with
  | nil => intro idx _; simp [shutdownLoop]
  | cons h rest ih =>
      intro idx hok
      unfold shutdownAllOk at hok
      rw [Bool.and_eq_true] at hok
      obtain ⟨hra, hr⟩ := rejectAfter_of_sdStepOk hok.1 (shutdownHaltedError idx)
      unfold shutdownLoop
      rw [hra, hr]
      rw [ih hok.2]
      simp

/-- A startup pass whose `j`-th handler (zero-based) stalls after a
fault-free prefix: the loop visits exactly indices `idx, …, idx + j` and
aborts with the sentinel error carrying the zero-based counter `idx + j`. -/
theorem startupLoop_stallAt {delay : Int} {total : Nat} :
    ∀ (j : Nat) (steps : List (StartupHandlerT ι)) (idx : Nat)
      (sd : List (ShutdownHandlerT ι)) (hj : j < steps.length),
      startupPrefixOk steps delay total idx j = true →
      stallsStep (steps.get ⟨j, hj⟩) delay (idx + j) total = true →
      ∃ sd', startupLoop steps delay total idx sd =
        (sd', (List.range' idx (j + 1)).map Event.ranStartup,
          some (startupHaltedError (idx + j))) := by
  intro j
  induction j with
  | zero =>
      intro steps idx sd hj _ hst
      match steps, hj with
      | h :: rest, _ =>
          have hst0 : stallsStep h delay idx total = true := by simpa using hst
          refine ⟨sd, ?_⟩
          unfold startupLoop
          rw [rejectAfter_of_stalls hst0 (startupHaltedError idx)]
          simp [List.range'_succ]
  | succ j ih =>
      intro steps idx sd hj hpre hst
      match steps, hj with
      | h :: rest, hj =>
          unfold startupPrefixOk at hpre
          rw [Bool.and_eq_true] at hpre
          obtain ⟨hra, r, hr⟩ := rejectAfter_of_stepOk hpre.1 (startupHaltedError idx)
          have hj' : j < rest.length := Nat.lt_of_succ_lt_succ hj
          have heq : (idx + 1) + j = idx + (j + 1) := by omega
          have hst' : stallsStep (rest.get ⟨j, hj'⟩) delay ((idx + 1) + j) total = true := by
            rw [heq]; simpa using hst
          have hrange : List.range' idx (j + 1 + 1) =
              idx :: List.range' (idx + 1) (j + 1) := List.range'_succ idx (j + 1) 1
          cases r with
          | callable c =>
              obtain ⟨sd', hloop⟩ := ih rest (idx + 1) (c :: sd) hj' hpre.2 hst'
              rw [heq] at hloop
              refine ⟨sd', ?_⟩
              unfold startupLoop
              rw [hra, hr]
              simp [hloop, hrange]
          | notCallable =>
              obtain ⟨sd', hloop⟩ := ih rest (idx + 1) sd hj' hpre.2 hst'
              rw [heq] at hloop
              refine ⟨sd', ?_⟩
              unfold startupLoop
              rw [hra, hr]
              simp [hloop, hrange]

end ScriptLoader

/-! ## Shared concrete fixtures for witnesses and counterexamples -/

/-- A cleanup handler with identity `s` that settles immediately and
fulfils. -/
def mkCleanup (s : String) : ShutdownHandlerT String :=
  { id := s, run := fun _ _ => { settle := some 0, result := .ok () } }

/-- A startup handler that settles immediately, resolving to the callable
`mkCleanup s`. -/
def mkStartupReturning (s : String) : StartupHandlerT String :=
  { run := fun _ _ => { settle := some 0, result := .ok (.callable (mkCleanup s)) } }

/-- A startup handler whose promise never settles. -/
def stallingStartup : StartupHandlerT String :=
  { run := fun _ _ => { settle := none, result := .ok .notCallable } }

/-- An idle loader with an empty settings store: two startup steps that
contribute cleanups `"A"` then `"B"`, and the explicitly pre-registered
shutdown step `"C"`. -/
def fixtureIdle : ScriptLoader String :=
  { startupSteps := [mkStartupReturning "A", mkStartupReturning "B"]
    shutdownSteps := [mkCleanup "C"]
    onError := defaultOnError
    settings := .obj .nil
    defaultSettings := .obj .nil
    envPrefix := none
    environment := .str "development"
    isRunning := false
    isShutdownRunning := false }

/-- `fixtureIdle` already running (as after a completed `start()`). -/
def fixtureRunning : ScriptLoader String :=
  { fixtureIdle with isRunning := true }

/-- `fixtureIdle` already shutting down. -/
def fixtureShutdown : ScriptLoader String :=
  { fixtureIdle with isRunning := false, isShutdownRunning := true }

/-- An idle loader whose single startup step never settles. -/
def fixtureStalling : ScriptLoader String :=
  { fixtureIdle with startupSteps := [stallingStartup] }

/-- An idle loader with a fine first startup step and a second that never
settles. -/
def fixtureStallingSecond : ScriptLoader String :=
  { fixtureIdle with startupSteps := [mkStartupReturning "A", stallingStartup] }

/-- A running loader whose error handler itself throws `"handler exploded"`. -/
def fixtureThrowingHandler : ScriptLoader String :=
  { fixtureRunning with onError := fun _ => some (.str "handler exploded") }

/-- A startup handler that settles immediately with a rejection. -/
def rejectingStartup : StartupHandlerT String :=
  { run := fun _ _ => { settle := some 0, result := .error (.str "startup failure") } }

/-- An idle loader whose single startup step rejects and whose error handler
itself throws — the failing input of claim C5. -/
def fixtureRejectingStart : ScriptLoader String :=
  { fixtureIdle with
      startupSteps := [rejectingStartup]
      onError := fun _ => some (.str "handler exploded") }

/-- An error object carrying `exitCode: 42`. -/
def errWith42 : JSVal := .obj (.cons "exitCode" (.num 42) .nil)

/-- An error object carrying `exitCode: 0`. -/
def errWith0 : JSVal := .obj (.cons "exitCode" (.num 0) .nil)

/-- A default-settings object `{runtime: {environment: "production"}}`. -/
def fixtureDefaults : JSFields :=
  .cons "runtime" (.obj (.cons "environment" (.str "production") .nil)) .nil

namespace ScriptLoader

/-- Claim C6: for every controller whose state is not idle (it is already
running, shutting down, or stopped), a call to `start()` returns immediately
without invoking any startup handler, without attaching signal handlers, and
without changing the controller's state or either handler list — calling
`start()` a second time while already running re-executes no handler. -/
theorem start_noop_when_not_idle (l : ScriptLoader ι) (attach : Bool)
    (h : l.isRunning = true ∨ l.isShutdownRunning = true) :
    start l attach = (l, [], .resolved) := by
  unfold start
  rcases h with h | h <;> rw [h] <;> simp

/-- Witness for C6: a running controller, `start` again is the no-op. -/
theorem start_noop_when_not_idle_witness :
    fixtureRunning.isRunning = true ∧
      start fixtureRunning true = (fixtureRunning, [], .resolved) :=
  ⟨rfl, start_noop_when_not_idle fixtureRunning true (Or.inl rfl)⟩

/-- Claim C7: for every controller whose state is not running (never
started, already shutting down, or already stopped), a call to `stop()`,
with or without an error argument, is a no-op: no shutdown handler, no
error-handler call, no process termination, state and lists unchanged. -/
theorem stop_noop_when_not_running (l : ScriptLoader ι) (e : JSVal)
    (h : l.isRunning = false ∨ l.isShutdownRunning = true) :
    stop l e = (l, [], .resolved) := by
  unfold stop
  rcases h with h | h <;> rw [h] <;> simp

/-- Witness for C7: `stop()` (and `stop(error)`) on a never-started
controller is the no-op. -/
theorem stop_noop_when_not_running_witness :
    fixtureIdle.isRunning = false ∧
      stop fixtureIdle .undefined = (fixtureIdle, [], .resolved) ∧
      stop fixtureIdle errWith42 = (fixtureIdle, [], .resolved) :=
  ⟨rfl, stop_noop_when_not_running fixtureIdle .undefined (Or.inl rfl),
    stop_noop_when_not_running fixtureIdle errWith42 (Or.inl rfl)⟩

/-- Claim C10: once `stop()` has begun (the shutting-down flag is set) the
flag is never cleared, so every later `start()` or `stop()` on the same
controller returns immediately without invoking any handler; and a `stop()`
that passes its guard does set the flag.  A controller that entered shutdown
can never be restarted. -/
theorem shutdown_flag_never_cleared (l l2 : ScriptLoader ι) (attach : Bool)
    (e e2 : JSVal) (h : l.isShutdownRunning = true)
    (h2 : l2.isRunning = true) (h3 : l2.isShutdownRunning = false) :
    start l attach = (l, [], .resolved) ∧ stop l e = (l, [], .resolved) ∧
      (stop l2 e2).1.isShutdownRunning = true := by
  refine ⟨?_, ?_, ?_⟩
  · unfold start; rw [h]; simp
  · unfold stop; rw [h]; simp
  · unfold stop; rw [h2, h3]; rfl

/-- Witness for C10: a concrete controller in shutdown is inert under both
operations, and a running one entering `stop` sets the permanent flag. -/
theorem shutdown_flag_never_cleared_witness :
    start fixtureShutdown true = (fixtureShutdown, [], .resolved) ∧
      stop fixtureShutdown .undefined = (fixtureShutdown, [], .resolved) ∧
      (stop fixtureRunning errWith42).1.isShutdownRunning = true :=
  shutdown_flag_never_cleared fixtureShutdown fixtureRunning true .undefined
    errWith42 rfl rfl rfl

/-! ## Helper lemmas: the guarded entries of `start` and `stop` -/

theorem stop_running (l : ScriptLoader ι) (e : JSVal)
    (h1 : l.isRunning = true) (h2 : l.isShutdownRunning = false) :
    stop l e = ({ l with isRunning := false, isShutdownRunning := true },
      stopBody { l with isRunning := false, isShutdownRunning := true } e) := by
  unfold stop; rw [h1, h2]; rfl

theorem start_idle (l : ScriptLoader ι) (attach : Bool)
    (h1 : l.isRunning = false) (h2 : l.isShutdownRunning = false) :
    start l attach = startBody { l with isRunning := true } attach := by
  unfold start; rw [h1, h2]; rfl

/-- The exit-code mapping the code actually implements, stated from the
amended claim C4: an error's numeric `exitCode` when it is an object
carrying one and the code is nonzero; otherwise `1` (in particular an
`exitCode` of `0` maps to `1`). -/
def amendedExitCode (e : JSVal) : Int :=
  match e with
  | .obj fs =>
      match fs.lookupField "exitCode" with
      | some (.num c) => if c = 0 then 1 else c
      | _ => 1
  | _ => 1

/-- `computeExitCode` throws only on `null` errors, and its code is the
`amendedExitCode` mapping. -/
theorem computeExitCode_ok (e : JSVal) (hn : e ≠ .null) :
    computeExitCode e = .ok (amendedExitCode e) := by
  cases e
  case null => exact absurd rfl hn
  case obj fs =>
      simp only [computeExitCode, amendedExitCode]
      rcases hf : fs.lookupField "exitCode" with _ | v
      · rfl
      · cases v <;> rfl
  all_goals rfl

/-- The error path of `stopBody`: a supplied error (not `undefined`, not
`null`) with a completing error handler skips the loop, calls the handler
and exits with the computed code. -/
theorem stopBody_error (l1 : ScriptLoader ι) (e : JSVal) (c : Int)
    (he : e ≠ .undefined) (hon : l1.onError e = none)
    (hc : computeExitCode e = .ok c) :
    stopBody l1 e = ([.calledOnError e], .exited c) := by
  unfold stopBody
  rw [if_neg he]
  unfold stopFinish
  dsimp only
  rw [if_neg he, hon, hc]
  rfl

/-- A graceful `stop()` on a running controller whose shutdown handlers all
settle in time: runs them in list order and exits 0. -/
theorem stop_graceful (l : ScriptLoader ι)
    (h1 : l.isRunning = true) (h2 : l.isShutdownRunning = false)
    (hok : shutdownAllOk l.shutdownSteps
      (toDelay (l.getSetting "runtime.shutdownTimeout" (.num 2000)))
      l.shutdownSteps.length 0 = true) :
    (stop l .undefined).2.1 = l.shutdownSteps.map (fun h => Event.ranShutdown h.id)
    ∧ (stop l .undefined).2.2 = .exited 0 := by
  rw [stop_running l .undefined h1 h2]
  unfold stopBody
  rw [if_pos rfl]
  dsimp only
  have hgs : ({ l with isRunning := false, isShutdownRunning := true } :
      ScriptLoader ι).getSetting "runtime.shutdownTimeout" (.num 2000) =
      l.getSetting "runtime.shutdownTimeout" (.num 2000) := rfl
  rw [hgs, shutdownLoop_allOk hok]
  exact ⟨rfl, rfl⟩

/-- A `stop(e)` on a running controller with a present, non-`null` error and
a completing error handler: the only events are the error-handler call and
the exit with the computed code. -/
theorem stop_error_events (l : ScriptLoader ι) (e : JSVal)
    (h1 : l.isRunning = true) (h2 : l.isShutdownRunning = false)
    (he : e ≠ .undefined) (hon : l.onError e = none) (c : Int)
    (hc : computeExitCode e = .ok c) :
    (stop l e).2.1 = [.calledOnError e] ∧ (stop l e).2.2 = .exited c := by
  rw [stop_running l e h1 h2,
    stopBody_error { l with isRunning := false, isShutdownRunning := true } e c
      he hon hc]
  exact ⟨rfl, rfl⟩

/-! ## Claims C3, C4, C5 -/

/-- Counterexample to claim C3 as stated: on a running controller,
`stop(null)` (a defined error value) does invoke the error handler but then
the exit-code expression reads `null.exitCode` and throws, so the process is
never terminated — the call rejects instead. -/
theorem stop_error_terminates_cex :
    (stop fixtureRunning .null).2.1 = [.calledOnError .null] ∧
      (stop fixtureRunning .null).2.2 = .threw nullReadError := by
  constructor <;> rfl

/-- Claim C3, amended: for every running controller and defined error value
`e`, provided `e` is not `null` and the error handler completes on `e`,
`stop(e)` runs no shutdown handler at all, invokes the error handler with
`e`, and terminates the process; when `e.exitCode === 42` the exit code
is 42. -/
theorem stop_error_skips_shutdown (l : ScriptLoader ι) (e : JSVal)
    (h1 : l.isRunning = true) (h2 : l.isShutdownRunning = false)
    (he : e ≠ .undefined) (hn : e ≠ .null) (hon : l.onError e = none) :
    ∃ c : Int,
      stop l e = ({ l with isRunning := false, isShutdownRunning := true },
        [.calledOnError e], .exited c) ∧
      (∀ fs : JSFields, e = .obj fs →
        fs.lookupField "exitCode" = some (.num 42) → c = 42) := by
  have hc := computeExitCode_ok e hn
  refine ⟨amendedExitCode e, ?_, ?_⟩
  · rw [stop_running l e h1 h2,
      stopBody_error { l with isRunning := false, isShutdownRunning := true } e
        (amendedExitCode e) he hon hc]
  · intro fs hfs h42
    subst hfs
    simp only [amendedExitCode]
    rw [h42]
    rfl

/-- Witness for C3 (amended): a concrete running controller stopped with an
`exitCode: 42` error skips its shutdown list, reports the error once, and
exits 42. -/
theorem stop_error_skips_shutdown_witness :
    stop fixtureRunning errWith42 =
      ({ fixtureRunning with isRunning := false, isShutdownRunning := true },
        [.calledOnError errWith42], .exited 42) := by
  obtain ⟨c, heq, h42⟩ := stop_error_skips_shutdown fixtureRunning errWith42 rfl rfl
    (by decide) (by decide) rfl
  rw [heq, h42 (.cons "exitCode" (.num 42) .nil) rfl rfl]

/-- Counterexample to claim C4 as stated: an error whose numeric `exitCode`
is `0` terminates the process with exit code `1`, not `0` — `0` is falsy, so
`error.exitCode || 1` evaluates to `1`. -/
theorem exit_code_zero_cex :
    (stop fixtureRunning errWith0).2.2 = .exited 1 ∧
      JSFields.lookupField (.cons "exitCode" (.num 0) .nil) "exitCode" =
        some (.num 0) ∧
      Outcome.exited 1 ≠ Outcome.exited 0 := by
  refine ⟨rfl, rfl, by decide⟩

/-- Claim C4, amended: a terminating run of `stop()` exits with code `0`
when no error is present after the shutdown phase; otherwise — provided the
error is not `null` and the error handler completes, the cases in which the
run terminates at all — it exits with the error's numeric `exitCode`
attribute when present and nonzero, else `1` (an `exitCode` of `0` yields
exit code `1`, not `0`). -/
theorem stop_exit_code_mapping (l : ScriptLoader ι) (e : JSVal)
    (h1 : l.isRunning = true) (h2 : l.isShutdownRunning = false) :
    (e = .undefined →
      shutdownAllOk l.shutdownSteps
        (toDelay (l.getSetting "runtime.shutdownTimeout" (.num 2000)))
        l.shutdownSteps.length 0 = true →
      (stop l e).2.2 = .exited 0)
    ∧ (e ≠ .undefined → e ≠ .null → l.onError e = none →
      (stop l e).2.2 = .exited (amendedExitCode e)) := by
  constructor
  · intro heu hok
    subst heu
    rw [stop_running l .undefined h1 h2]
    unfold stopBody
    rw [if_pos rfl]
    dsimp only
    have hgs : ({ l with isRunning := false, isShutdownRunning := true } :
        ScriptLoader ι).getSetting "runtime.shutdownTimeout" (.num 2000) =
        l.getSetting "runtime.shutdownTimeout" (.num 2000) := rfl
    rw [hgs, shutdownLoop_allOk hok]
    rfl
  · intro he hn hon
    rw [stop_running l e h1 h2,
      stopBody_error { l with isRunning := false, isShutdownRunning := true } e
        (amendedExitCode e) he hon (computeExitCode_ok e hn)]

/-- Witness for C4 (amended): a graceful stop of a concrete running
controller exits 0; a stop with an `exitCode: 42` error exits 42. -/
theorem stop_exit_code_mapping_witness :
    (stop fixtureRunning .undefined).2.2 = .exited 0 ∧
      (stop fixtureRunning errWith42).2.2 = .exited 42 := by
  refine ⟨(stop_exit_code_mapping fixtureRunning .undefined rfl rfl).1 rfl
    (by decide), ?_⟩
  have h := (stop_exit_code_mapping fixtureRunning errWith42 rfl rfl).2
    (by decide) (by decide) rfl
  rw [h]
  rfl

/-- Claim C5 is refuted by the code (a code bug: the doc comment of `start`
promises it "will NEVER ever throw"): an error handler that itself throws
makes `stop()` — and `start()`, which returns `stop`'s promise on a startup
failure — reject to its caller instead of terminating the process. -/
theorem lifecycle_rejects_outward :
    (stop fixtureThrowingHandler (.str "startup failure")).2.2 =
        .threw (.str "handler exploded") ∧
      (start fixtureRejectingStart true).2.2 = .threw (.str "handler exploded") := by
  constructor <;> rfl

/-! ## Claims C1 and C2 -/

/-- Claim C1: on a fault-free run of `start()`, each startup handler whose
resolved value is callable has that callable prepended to the front of the
shutdown list — the final list is the reverse of the contribution order
followed by the previously registered shutdown handlers — so the subsequent
front-to-back graceful `stop()` runs every dynamically-contributed cleanup
before any explicitly pre-registered shutdown handler, and the dynamic
cleanups in reverse order of the startup steps that contributed them. -/
theorem start_stack_discipline (l : ScriptLoader ι)
    (h1 : l.isRunning = false) (h2 : l.isShutdownRunning = false)
    (hok : startupAllOk l.startupSteps
      (toDelay (l.getSetting "runtime.startupTimeout" (.num 2000)))
      l.startupSteps.length 0 = true) :
    (start l true).1.shutdownSteps =
      (collectCleanups l.startupSteps
        (toDelay (l.getSetting "runtime.startupTimeout" (.num 2000)))
        l.startupSteps.length 0).reverse ++ l.shutdownSteps
    ∧ (start l true).2.2 = .resolved
    ∧ (shutdownAllOk (start l true).1.shutdownSteps
        (toDelay (l.getSetting "runtime.shutdownTimeout" (.num 2000)))
        (start l true).1.shutdownSteps.length 0 = true →
      (stop (start l true).1 .undefined).2.1 =
        (start l true).1.shutdownSteps.map (fun h => Event.ranShutdown h.id)
      ∧ (stop (start l true).1 .undefined).2.2 = .exited 0) := by
  have hstart : start l true =
      ({ l with
          isRunning := true
          shutdownSteps := (collectCleanups l.startupSteps
            (toDelay (l.getSetting "runtime.startupTimeout" (.num 2000)))
            l.startupSteps.length 0).reverse ++ l.shutdownSteps },
        .attached :: (List.range' 0 l.startupSteps.length).map Event.ranStartup,
        .resolved) := by
    rw [start_idle l true h1 h2]
    unfold startBody
    dsimp only
    have hgs : ({ l with isRunning := true } :
        ScriptLoader ι).getSetting "runtime.startupTimeout" (.num 2000) =
        l.getSetting "runtime.startupTimeout" (.num 2000) := rfl
    rw [hgs, @startupLoop_allOk ι l.startupSteps
      (toDelay (l.getSetting "runtime.startupTimeout" (.num 2000)))
      l.startupSteps.length 0 l.shutdownSteps hok]
    rfl
  refine ⟨by rw [hstart], by rw [hstart], ?_⟩
  intro hsd
  rw [hstart] at hsd ⊢
  exact stop_graceful _ rfl h2 hsd

/-- Witness for C1: startup steps contributing cleanups `A` then `B` over a
pre-registered shutdown step `C` leave the shutdown list `[B, A, C]`, and a
graceful stop runs exactly `B`, then `A`, then `C`, and exits 0. -/
theorem start_stack_discipline_witness :
    startupAllOk fixtureIdle.startupSteps
      (toDelay (fixtureIdle.getSetting "runtime.startupTimeout" (.num 2000)))
      fixtureIdle.startupSteps.length 0 = true ∧
    (start fixtureIdle true).1.shutdownSteps.map ShutdownHandlerT.id =
      ["B", "A", "C"] ∧
    (stop (start fixtureIdle true).1 .undefined).2.1 =
      [.ranShutdown "B", .ranShutdown "A", .ranShutdown "C"] ∧
    (stop (start fixtureIdle true).1 .undefined).2.2 = .exited 0 := by
  obtain ⟨hlist, _, hstop⟩ := start_stack_discipline fixtureIdle rfl rfl (by decide)
  obtain ⟨hevs, hout⟩ := hstop (by rw [hlist]; decide)
  refine ⟨by decide, ?_, ?_, hout⟩
  · rw [hlist]; decide
  · rw [hevs, hlist]; decide

/-- Counterexample to claim C2 as stated: with a single startup handler that
never settles, the 1-indexed position of the stalled handler is 1, but the
error passed to `stop` is `new Error("Startup halted at step 0")` — the
`step++` post-increment reads the counter before incrementing, so the
carried step number is zero-based. -/
theorem startup_timeout_one_indexed_cex :
    (start fixtureStalling true).2.1 =
      [.attached, .ranStartup 0, .calledOnError (startupHaltedError 0)] ∧
      (start fixtureStalling true).2.2 = .exited 1 ∧
      startupHaltedError 0 ≠ startupHaltedError 1 := by
  refine ⟨rfl, rfl, by decide⟩

/-- Claim C2, amended: if the startup handler at zero-based index `j` does
not settle within `runtime.startupTimeout` (default 2000 ms) after a
fault-free prefix, `start()` aborts with a startup-timeout error whose
carried step number is the ZERO-based position `j` (the 1-indexed position
minus one), passes that error to `stop()` (which reports it through the
error handler and exits 1), and no startup handler after the stalled one
runs — the event trace ends at index `j`. -/
theorem startup_timeout_zero_indexed (l : ScriptLoader ι) (j : Nat)
    (h1 : l.isRunning = false) (h2 : l.isShutdownRunning = false)
    (hj : j < l.startupSteps.length)
    (hpre : startupPrefixOk l.startupSteps
      (toDelay (l.getSetting "runtime.startupTimeout" (.num 2000)))
      l.startupSteps.length 0 j = true)
    (hst : stallsStep (l.startupSteps.get ⟨j, hj⟩)
      (toDelay (l.getSetting "runtime.startupTimeout" (.num 2000)))
      j l.startupSteps.length = true)
    (hon : l.onError (startupHaltedError j) = none) :
    (start l true).2.1 = .attached ::
        ((List.range' 0 (j + 1)).map Event.ranStartup
          ++ [.calledOnError (startupHaltedError j)])
    ∧ (start l true).2.2 = .exited 1 := by
  have hst0 : stallsStep (l.startupSteps.get ⟨j, hj⟩)
      (toDelay (l.getSetting "runtime.startupTimeout" (.num 2000)))
      (0 + j) l.startupSteps.length = true := by
    rw [Nat.zero_add]; exact hst
  obtain ⟨sd', hloop⟩ := startupLoop_stallAt j l.startupSteps 0 l.shutdownSteps hj
    hpre hst0
  rw [Nat.zero_add] at hloop
  rw [start_idle l true h1 h2]
  unfold startBody
  dsimp only
  have hgs : ({ l with isRunning := true } :
      ScriptLoader ι).getSetting "runtime.startupTimeout" (.num 2000) =
      l.getSetting "runtime.startupTimeout" (.num 2000) := rfl
  rw [hgs, hloop]
  dsimp only
  obtain ⟨hevs2, hout2⟩ := stop_error_events
    ({ l with isRunning := true, shutdownSteps := sd' } : ScriptLoader ι)
    (startupHaltedError j) rfl h2 (by simp [startupHaltedError, mkError]) hon 1 rfl
  rw [hevs2, hout2]
  exact ⟨by simp, rfl⟩

/-- Witness for C2 (amended): two startup steps, the second never settles;
the run visits steps 0 and 1, aborts with the sentinel carrying step
number 1 (zero-based; the stalled handler's 1-indexed position is 2),
reports it and exits 1. -/
theorem startup_timeout_zero_indexed_witness :
    (start fixtureStallingSecond true).2.1 =
      [.attached, .ranStartup 0, .ranStartup 1,
        .calledOnError (startupHaltedError 1)] ∧
      (start fixtureStallingSecond true).2.2 = .exited 1 := by
  obtain ⟨hevs, hout⟩ := startup_timeout_zero_indexed fixtureStallingSecond 1 rfl rfl
    (by decide) (by decide) (by decide) rfl
  rw [hevs, hout]
  exact ⟨by decide, rfl⟩

/-! ## Claim C8: environment resolution -/

/-- `stop` never changes the `environment` field. -/
theorem stop_env (l : ScriptLoader ι) (e : JSVal) :
    (stop l e).1.environment = l.environment := by
  unfold stop
  split <;> rfl

/-- `start` never changes the `environment` field. -/
theorem start_env (l : ScriptLoader ι) (attach : Bool) :
    (start l attach).1.environment = l.environment := by
  unfold start
  split
  · rfl
  · unfold startBody
    split
    · rfl
    · next sd evs e heq =>
        split
        next l3 evs2 out heq2 =>
          have h3 := stop_env ({ l with isRunning := true, shutdownSteps := sd} :
            ScriptLoader ι) e
          rw [heq2] at h3
          exact h3

end ScriptLoader

/-- The environment-resolution precedence the constructor actually
implements, stated from the amended claim C8: (1) the process environment
variable `RUNTIME_ENVIRONMENT` (its value parsed by `parseInput`), then
(2) the settings store (caller-supplied defaults merged under the persisted
contents) at `runtime.environment`, then (3) `NODE_ENV` when set and
non-empty, then (4) the literal `"development"`. -/
def environmentSpec (envVars : List (String × String)) (store : JSVal) : JSVal :=
  match lookupEnv envVars "RUNTIME_ENVIRONMENT" with
  | some v => parseInput v
  | none =>
      if hasPath store (splitPath "runtime.environment") then
        (getPath store (splitPath "runtime.environment")).getD .undefined
      else
        match lookupEnv envVars "NODE_ENV" with
        | some s => if s = "" then .str "development" else .str s
        | none => .str "development"

/-- Counterexample to claim C8 as stated: the caller supplies the explicit
option `runtime.environment = "production"` in the default settings and the
process environment carries `RUNTIME_ENVIRONMENT=test`; the claim's
precedence (explicit option first) predicts `"production"`, but the
constructor resolves `"test"` — the environment variable wins over the
explicit option. -/
theorem environment_precedence_cex :
    (construct [("RUNTIME_ENVIRONMENT", "test")] (some (.obj fixtureDefaults))
        (.obj .nil) ([] : List (StartupHandlerT String)) []
        defaultOnError).environment = .str "test" ∧
      ConfigStore.get (initialStore (some (.obj fixtureDefaults)) (.obj .nil))
        "runtime.environment" = .str "production" ∧
      (JSVal.str "test") ≠ .str "production" := by
  refine ⟨by decide, by decide, by decide⟩

/-- Claim C8, amended: at construction the `environment` field is resolved
exactly once, with this precedence: the process environment variable
`RUNTIME_ENVIRONMENT` (parsed), then the settings store (the caller's
explicit defaults merged under persisted contents) at `runtime.environment`,
then `NODE_ENV` when set and non-empty, then the literal `"development"`;
the field is immutable afterwards: no lifecycle or settings operation
changes it. -/
theorem environment_resolution (envVars : List (String × String))
    (defaults : Option JSVal) (persisted : JSVal)
    (su : List (StartupHandlerT ι)) (sd : List (ShutdownHandlerT ι))
    (onErr : JSVal → Option JSVal) (l : ScriptLoader ι) (attach : Bool)
    (e : JSVal) (p : String) (v : JSVal) (vs : List (String × JSVal)) :
    (construct envVars defaults persisted su sd onErr).environment =
      environmentSpec envVars (initialStore defaults persisted)
    ∧ (ScriptLoader.start l attach).1.environment = l.environment
    ∧ (ScriptLoader.stop l e).1.environment = l.environment
    ∧ (l.setSetting p v).environment = l.environment
    ∧ (l.setSettings vs).environment = l.environment
    ∧ (l.deleteSetting p).environment = l.environment
    ∧ l.resetSettings.environment = l.environment := by
  refine ⟨?_, ScriptLoader.start_env l attach, ScriptLoader.stop_env l e,
    rfl, rfl, rfl, rfl⟩
  have hpte : pathToEnv "runtime.environment" ((none : Option String).getD "") =
      "RUNTIME_ENVIRONMENT" := by decide
  unfold construct ScriptLoader.getSettingOrEnv environmentSpec
  dsimp only
  rw [hpte]
  rfl

/-! ## Claim C9: settings reset round-trip -/

/-- One call of the settings-mutation surface: `setSetting`, `setSettings`
or `deleteSetting`. -/
inductive SettingsOp where
  | setOne (path : String) (v : JSVal) : SettingsOp
  | setMany (vs : List (String × JSVal)) : SettingsOp
  | del (path : String) : SettingsOp

/-- Apply one settings operation to the controller. -/
def applyOp (l : ScriptLoader ι) : SettingsOp → ScriptLoader ι
  | .setOne p v => l.setSetting p v
  | .setMany vs => l.setSettings vs
  | .del p => l.deleteSetting p

/-- Apply a sequence of settings operations, left to right. -/
def applyOps (l : ScriptLoader ι) : List SettingsOp → ScriptLoader ι
  | [] => l
  | op :: ops => applyOps (applyOp l op) ops

/-- The settings-mutation surface never touches the default-settings
snapshot. -/
theorem applyOps_defaultSettings (ops : List SettingsOp) :
    ∀ l : ScriptLoader ι, (applyOps l ops).defaultSettings = l.defaultSettings := by
  induction ops with
  | nil => intro l; rfl
  | cons op ops ih =>
      intro l
      have h := ih (applyOp l op)
      rw [applyOps, h]
      cases op <;> rfl

/-- Claim C9: for every controller constructed with a default-settings
object `D`, after any sequence of `setSetting`/`setSettings`/`deleteSetting`
operations, `resetSettings()` followed by `getSetting(p)` for a key path `p`
present in `D` returns exactly the value `D` assigns to `p`. -/
theorem resetSettings_roundtrip (envVars : List (String × String))
    (dfs : JSFields) (persisted : JSVal) (su : List (StartupHandlerT ι))
    (sd : List (ShutdownHandlerT ι)) (onErr : JSVal → Option JSVal)
    (ops : List SettingsOp) (p : String) (v : JSVal)
    (hv : getPath (.obj dfs) (splitPath p) = some v) :
    ((applyOps (construct envVars (some (.obj dfs)) persisted su sd onErr)
        ops).resetSettings).getSetting p .undefined = v := by
  have hdef : (applyOps (construct envVars (some (.obj dfs)) persisted su sd onErr)
      ops).defaultSettings = .obj dfs :=
    applyOps_defaultSettings ops (construct envVars (some (.obj dfs)) persisted
      su sd onErr)
  unfold ScriptLoader.resetSettings ScriptLoader.getSetting ScriptLoader.hasSetting
  rw [hdef]
  dsimp only
  unfold spreadCopy
  simp [ConfigStore.has, ConfigStore.get, hasPath, hv]

/-- Witness for C9: concrete defaults `{runtime: {environment:
"production"}}`, a mutation sequence that overwrites, deletes and adds keys,
then reset: `getSetting "runtime.environment"` returns `"production"`. -/
theorem resetSettings_roundtrip_witness :
    getPath (.obj fixtureDefaults) (splitPath "runtime.environment") =
      some (.str "production") ∧
    ((applyOps (construct [] (some (.obj fixtureDefaults)) (.obj .nil)
        ([] : List (StartupHandlerT String)) [] defaultOnError)
        [.setOne "runtime.environment" (.str "x"), .del "runtime",
          .setMany [("a.b", .num 1)]]).resetSettings).getSetting
      "runtime.environment" .undefined = .str "production" :=
  ⟨by decide,
    resetSettings_roundtrip [] fixtureDefaults (.obj .nil) [] [] defaultOnError
      [.setOne "runtime.environment" (.str "x"), .del "runtime",
        .setMany [("a.b", .num 1)]] "runtime.environment" (.str "production")
      (by decide)⟩

end ScriptLoaderSpec
